import Mathlib

/-!
Shallow embedding of the proxy-wasm sidecar core
(`src/rust_host/proxywasm`): handshake version negotiation,
executor result mapping, error classification, request/reply
correlation, local-response slot, application lookup gate,
stats-row TTL cache, serialized-list codec, key-value store get,
and the `request.host` property resolver.
-/

namespace ProxyWasm

/-! ## Shared enumerations

Modelled from the spec: `ProxyStatus`, `HostError`, the action-code
constants and `runtime::app::Status` are declared in crates outside
`src/` (`fastedge_proxywasm`, `runtime`); only their named constants
are used by the code under `src/`, so they are embedded as
enumerations of those names (error message payloads elided). -/

/-- Result codes for host-function replies (spec section 3,
`ProxyStatus`). -/
inductive ProxyStatus
  | Ok
  | NotFound
  | BadArgument
  | Empty
  | CasMismatch
  | InvalidMemoryAccess
  | InternalFailure
  | Unimplemented
  | SerializationFailure
  | ParseFailure
deriving DecidableEq

/-- Host-side error taxonomy (spec section 7); string payloads of the
Rust enum are elided. -/
inductive HostError
  | internalFailure
  | invalidMemoryAccess
  | serializationFailure
  | parseFailure
  | badArgument
  | notFound
  | empty
  | casMismatch
  | unimplemented
  | utf8Error
  | headerNameError
deriving DecidableEq

/-- Modelled from the spec: the `From<ProxyStatus>` conversion of the
external `fastedge_proxywasm` crate maps each status to the same-named
`HostError`. `request_reply` only applies it to non-`Ok` statuses. -/
def hostErrorFromStatus : ProxyStatus → HostError
  | .Ok => .internalFailure
  | .NotFound => .notFound
  | .BadArgument => .badArgument
  | .Empty => .empty
  | .CasMismatch => .casMismatch
  | .InvalidMemoryAccess => .invalidMemoryAccess
  | .InternalFailure => .internalFailure
  | .Unimplemented => .unimplemented
  | .SerializationFailure => .serializationFailure
  | .ParseFailure => .parseFailure

/-- Modelled from the spec: the named action-code constants of
`fastedge_proxywasm::action` used by `service.rs` and `executor.rs`. -/
inductive ActionCode
  | CONTINUE
  | NOT_FOUND
  | NOT_ACCEPTABLE
  | TOO_MANY_REQUESTS
  | INTERNAL_ERROR
  | EXECUTION_PANIC
  | EXECUTION_TIMEOUT
  | OUT_OF_MEMORY
deriving DecidableEq

/-- Modelled from the spec: `runtime::AppResult` fail reasons used by
`handle_request`. -/
inductive AppResult
  | SUCCESS
  | OTHER
  | TIMEOUT
  | OOM
  | UNKNOWN
deriving DecidableEq

/-- Modelled from the spec: `runtime::app::Status`, the application
lifecycle states named by the spec (section 4.2). -/
inductive Status
  | Draft
  | Enabled
  | RateLimited
  | Disabled
deriving DecidableEq

/-! ## Handshake (`service.rs`, `handshake`)

The Rust code builds two `HashSet`s (the proxy's offered versions and
`SUPPORTED_VERSIONS`), intersects them, collects the intersection into
a `Vec` in hash-set iteration order and takes `.first()`.  Hash-set
iteration order is unspecified and seed-randomized, so the embedding
takes the enumeration order of the intersection as a nondeterministic
input: any duplicate-free list whose members are exactly the common
versions is a possible enumeration. -/

/-- `SUPPORTED_VERSIONS: [u32; 3] = [0x01, 0x02, 0x2a]` from
`service.rs`. -/
def SUPPORTED_VERSIONS : List Nat := [1, 2, 42]

/-- The list `order` is a possible hash-set enumeration of the
intersection of the proxy's offered versions with
`SUPPORTED_VERSIONS`: duplicate-free and containing exactly the common
versions. -/
def IsIntersectionEnum (offered order : List Nat) : Prop :=
  order.Nodup ∧
    (∀ v ∈ order, v ∈ SUPPORTED_VERSIONS ∧ v ∈ offered) ∧
    (∀ v ∈ SUPPORTED_VERSIONS, v ∈ offered → v ∈ order)

instance (offered order : List Nat) :
    Decidable (IsIntersectionEnum offered order) := by
  unfold IsIntersectionEnum; infer_instance

/-- The version chosen by `handshake`: `.first()` of the collected
intersection.  `none` models the `bail!` path: handshake fails and the
connection is closed before any reply is sent. -/
def handshake_chosen (order : List Nat) : Option Nat :=
  order.head?

/-- The negotiated version as the SPEC words it (for refutation): the
first element of the proxy's offered list that is also supported, in
the proxy's offered order. -/
def spec_negotiated (offered : List Nat) : Option Nat :=
  (offered.filter (fun v => decide (v ∈ SUPPORTED_VERSIONS))).head?

/-! ## Executor result mapping (`executor.rs`, `execute` tail) -/

/-- `CONTINUE = 0` (spec section 6: action return contract). -/
def CONTINUE : Int := 0

/-- The tail of `ProxyWasmExecutor::execute`: given the handler's
return value and the `status_code` once-cell, decide the final action
(`executor.rs` lines 178-195). -/
def execute_result (next_action : Int) (status_code : Option Int) : Int :=
  match status_code with
  | some sc => if next_action ≠ CONTINUE then sc else next_action
  | none => next_action

/-! ## Execution error classification (`service.rs`,
`handle_request` error arm) -/

/-- Trap kinds distinguished by `handle_request`; every wasmtime trap
other than `Interrupt` and `UnreachableCodeReached` falls into
`otherTrap`. -/
inductive TrapCode
  | interrupt
  | unreachableCodeReached
  | otherTrap
deriving DecidableEq

/-- The root cause of an execution error, as probed by the successive
`downcast_ref` calls in `handle_request`: a wasi `I32Exit`, a wasmtime
`Trap`, a tokio timeout `Elapsed`, or anything else. -/
inductive RootCause
  | i32Exit (code : Int)
  | trap (t : TrapCode)
  | elapsed
  | otherError
deriving DecidableEq

/-- The `(next_action, fail_reason)` classification of
`handle_request` (`service.rs` lines 779-797). -/
def classify_execution_error : RootCause → ActionCode × AppResult
  | .i32Exit code =>
      if code = 0 then (.CONTINUE, .SUCCESS) else (.EXECUTION_PANIC, .OTHER)
  | .trap .interrupt => (.EXECUTION_TIMEOUT, .TIMEOUT)
  | .trap .unreachableCodeReached => (.OUT_OF_MEMORY, .OOM)
  | .trap .otherTrap => (.EXECUTION_PANIC, .OTHER)
  | .elapsed => (.EXECUTION_TIMEOUT, .TIMEOUT)
  | .otherError => (.INTERNAL_ERROR, .OTHER)

/-! ## Application lookup gate (`service.rs`, `handle_request`
lines 713-755) -/

/-- Outcome of the registry lookup phase: either a short-circuit
action or proceeding to executor acquisition and execution. -/
inductive HandleOutcome
  | shortCircuit (a : ActionCode)
  | proceed
deriving DecidableEq

/-- The lookup `match` of `handle_request`: `None` means
`lookup_by_id` found no application. -/
def handle_request_gate : Option Status → HandleOutcome
  | none => .shortCircuit .NOT_FOUND
  | some s =>
      if s = .Draft ∨ s = .Disabled then .shortCircuit .NOT_ACCEPTABLE
      else if s = .RateLimited then .shortCircuit .TOO_MANY_REQUESTS
      else .proceed

/-! ## Request/reply correlation (`service.rs`,
`ProxyWasmHost::request_reply` lines 205-232) -/

/-- How the armed 200 ms `timeout(…, rx)` resolves after the
`ProxyCommand` was sent: the oneshot delivers a `(status, bytes)`
reply, the oneshot is dropped (channel closed), or the timer fires
first. -/
inductive ReplyOutcome
  | reply (status : ProxyStatus) (bytes : List Nat)
  | channelClosed
  | timedOut
deriving DecidableEq

/-- The value `request_reply` hands back to the Wasm caller for each
resolution of the 200 ms timeout race (`service.rs` lines 218-232). -/
def request_reply_result (ev : ReplyOutcome) : Except HostError (List Nat) :=
  match ev with
  | .reply status res =>
      if status = ProxyStatus.Ok then .ok res
      else .error (hostErrorFromStatus status)
  | .channelClosed => .error .internalFailure
  | .timedOut => .ok []

/-! ## Local-response slot (`host/proxy.rs`,
`proxy_send_local_response` lines 518-533)

`status_code` is a `tokio::sync::OnceCell<i32>`: `set` stores the
value when the cell is vacant and fails without touching it when it is
already occupied.  The slot is threaded explicitly as `Option Int`. -/

/-- One `proxy_send_local_response` call: the returned pair is the
status handed to the module and the slot after the call. -/
def proxy_send_local_response (status_code : Int) (slot : Option Int) :
    Except HostError Unit × Option Int :=
  match slot with
  | none => (.ok (), some status_code)
  | some v => (.error .internalFailure, some v)

/-! ## Handlers and the stats-row cache (`service.rs`,
`get_stats_row` lines 824-849)

`mini_moka::sync::Cache<SmolStr, Arc<dyn StatsVisitor>>` is modelled
as an association list from the traceparent key to a row identity;
`context.new_stats_row` allocates a fresh `Arc`, modelled by a counter
(`nextRow`) so that distinct allocations have distinct identities.
The 1 s time-to-idle expiry is not modelled: the claims concern the
insert / reuse / invalidate sequence, not expiry. -/

/-- The lifecycle callback variants (`fastedge_proxywasm::v2::Handler`,
spec section 3). -/
inductive Handler
  | OnRequestHeaders (context_id num_headers : Nat)
  | OnResponseHeaders (context_id num_headers : Nat)
  | OnRequestBody (context_id body_size : Nat) (end_of_stream : Bool)
  | OnResponseBody (context_id body_size : Nat) (end_of_stream : Bool)
  | OnLog (context_id : Nat)
deriving DecidableEq

/-- The initial `match request` of `get_stats_row`: `some eos` for the
two body handlers, `none` for the early-return arm `_`. -/
def handlerEndOfStream : Handler → Option Bool
  | .OnRequestBody _ _ e => some e
  | .OnResponseBody _ _ e => some e
  | _ => none

/-- Cache state of the service plus the fresh-row allocator. -/
structure StatsState where
  cache : List (String × Nat)
  nextRow : Nat
deriving DecidableEq

/-- Lookup in the cache (`stats_cache.get`). -/
def cacheGet : List (String × Nat) → String → Option Nat
  | [], _ => none
  | (k2, v) :: rest, k => if k2 = k then some v else cacheGet rest k

/-- `stats_cache.insert` (a keyed map: later bindings shadow). -/
def cacheInsert (c : List (String × Nat)) (k : String) (v : Nat) :
    List (String × Nat) :=
  (k, v) :: c

/-- `stats_cache.invalidate`. -/
def cacheRemove : List (String × Nat) → String → List (String × Nat)
  | [], _ => []
  | (k2, v) :: rest, k =>
      if k2 = k then cacheRemove rest k else (k2, v) :: cacheRemove rest k

/-- `ProxyWasmService::get_stats_row`: returns the row identity handed
to the executor and the service state after the call. -/
def get_stats_row (request : Handler) (request_id : String)
    (st : StatsState) : Nat × StatsState :=
  match handlerEndOfStream request with
  | none => (st.nextRow, ⟨st.cache, st.nextRow + 1⟩)
  | some end_of_stream =>
      match cacheGet st.cache request_id with
      | some stats =>
          if end_of_stream then
            (stats, ⟨cacheRemove st.cache request_id, st.nextRow⟩)
          else (stats, st)
      | none =>
          let stats := st.nextRow
          if end_of_stream then (stats, ⟨st.cache, st.nextRow + 1⟩)
          else (stats, ⟨cacheInsert st.cache request_id stats, st.nextRow + 1⟩)

/-! ## Serialized lists (`host/key_value.rs`, `serialize_list`
lines 427-442)

Byte strings are `List Nat`; the `as i32` casts are exact because the
claim's hypothesis keeps every count and size below `i32::MAX`. -/

/-- Little-endian byte encoding of a 32-bit value, as
`i32::to_le_bytes` produces for a non-negative in-range value. -/
def encodeLE32 (n : Nat) : List Nat :=
  [n % 256, n / 256 % 256, n / 65536 % 256, n / 16777216 % 256]

/-- The first loop of `serialize_list`: one little-endian `i32` size
per element. -/
def sizesBytes : List (List Nat) → List Nat
  | [] => []
  | v :: rest => encodeLE32 v.length ++ sizesBytes rest

/-- The second loop of `serialize_list`: each element's bytes followed
by a `0x00` terminator. -/
def payloadBytes : List (List Nat) → List Nat
  | [] => []
  | v :: rest => v ++ [0] ++ payloadBytes rest

/-- `serialize_list`: little-endian `i32` count, then the element
sizes, then the terminated elements. -/
def serialize_list (list : List (List Nat)) : List Nat :=
  encodeLE32 list.length ++ sizesBytes list ++ payloadBytes list

/-- The capacity fold of `serialize_list`
(`fold(4, |size, v| size + v.len() + 5)`): the exact size of the
encoding. -/
def encodedSize : List (List Nat) → Nat
  | [] => 4
  | v :: rest => v.length + 5 + encodedSize rest

/-- Reads one little-endian 32-bit value (the inverse of
`encodeLE32`). -/
def readLE32 : List Nat → Option (Nat × List Nat)
  | b0 :: b1 :: b2 :: b3 :: rest =>
      some (b0 + 256 * b1 + 65536 * b2 + 16777216 * b3, rest)
  | _ => none

/-- Reads `n` little-endian sizes. -/
def readSizes : Nat → List Nat → Option (List Nat × List Nat)
  | 0, bytes => some ([], bytes)
  | n + 1, bytes =>
      match readLE32 bytes with
      | none => none
      | some (s, rest) =>
          match readSizes n rest with
          | none => none
          | some (sizes, rest2) => some (s :: sizes, rest2)

/-- Reads one element of each given size, checking the `0x00`
terminator after each. -/
def readValues : List Nat → List Nat → Option (List (List Nat) × List Nat)
  | [], bytes => some ([], bytes)
  | s :: sizes, bytes =>
      let v := bytes.take s
      if v.length = s then
        match bytes.drop s with
        | 0 :: rest =>
            match readValues sizes rest with
            | none => none
            | some (vs, rest2) => some (v :: vs, rest2)
        | _ => none
      else none

/-- A deserializer following the documented serialized-list format:
count, sizes, NUL-terminated elements, with no trailing bytes. -/
def deserialize_list (bytes : List Nat) : Option (List (List Nat)) :=
  match readLE32 bytes with
  | none => none
  | some (count, rest) =>
      match readSizes count rest with
      | none => none
      | some (sizes, rest2) =>
          match readValues sizes rest2 with
          | none => none
          | some (vs, rest3) => if rest3 = [] then some vs else none

/-! ## Key-value store get (`host/key_value.rs`,
`proxy_kv_store_get` lines 62-126)

The host function's effectful sub-steps (guest memory read, UTF-8
check, the backing store call, the guest allocator, the memory export
lookup and the value write) are threaded as an explicit outcome
record; the function below is the status-deciding control flow of the
Rust closure over those outcomes. -/

/-- Outcomes of the effectful sub-steps of one `proxy_kv_store_get`
call.  `storeResult` is `store.get(handle, key)`: `.ok none` is a
miss, `.error ()` a backend failure. -/
structure KvGetEnv where
  keyBytes : Option (List Nat)
  keyUtf8Ok : Bool
  storeResult : Except Unit (Option (List Nat))
  allocResult : Option Nat
  memExportOk : Bool
  writeOk : Bool

/-- The status `proxy_kv_store_get` returns to the Wasm caller. -/
def proxy_kv_store_get (e : KvGetEnv) : ProxyStatus :=
  match e.keyBytes with
  | none => .InvalidMemoryAccess
  | some _ =>
      if ¬ e.keyUtf8Ok then .BadArgument
      else
        match e.storeResult with
        | .error _ => .InternalFailure
        | .ok none => .Ok
        | .ok (some _) =>
            match e.allocResult with
            | none => .InvalidMemoryAccess
            | some _ =>
                if ¬ e.memExportOk then .InvalidMemoryAccess
                else if ¬ e.writeOk then .InvalidMemoryAccess
                else .Ok

/-! ## `request.host` property resolution (`host/proxy.rs`,
`proxy_get_property` lines 384-424)

The `REQUEST_HOST` arm on a property-cache miss: fetch the
`X-CDN-Real-Host` request header, prepend `shield_` when the node's
`role` is `edge_shield`, and only if the resulting value is empty fall
back to a `GetProperty` round-trip to the proxy.  The boolean in the
result records whether that fallback was issued. -/

/-- The bytes of the string `shield_`. -/
def shieldTag : List Nat := [115, 104, 105, 101, 108, 100, 95]

/-- The `REQUEST_HOST` arm of `proxy_get_property` for a cache miss:
`headerValue` is the `X-CDN-Real-Host` lookup result, `fallback` the
proxy-side `GetProperty` result used only when the (possibly
prefixed) header value is empty. -/
def resolve_request_host (role : Option String)
    (headerValue : Except HostError (List Nat))
    (fallback : Except HostError (List Nat)) :
    Except HostError (List Nat × Bool) :=
  match headerValue with
  | .error e => .error e
  | .ok value =>
      let host :=
        match role with
        | some r => if r = "edge_shield" then shieldTag ++ value else value
        | none => value
      if host = [] then
        match fallback with
        | .ok v => .ok (v, true)
        | .error e => .error e
      else .ok (host, false)

/-! ## Helper lemmas -/

/-- Decoding undoes `encodeLE32` for any in-range value, leaving the
tail untouched. -/
theorem readLE32_encodeLE32 (n : Nat) (rest : List Nat)
    (h : n < 4294967296) :
    readLE32 (encodeLE32 n ++ rest) = some (n, rest) := by
  have h4 : n % 256 + 256 * (n / 256 % 256) + 65536 * (n / 65536 % 256)
      + 16777216 * (n / 16777216 % 256) = n := by omega
  simp [encodeLE32, readLE32, h4]

/-- Reading back the size block of `serialize_list` yields the element
lengths. -/
theorem readSizes_sizesBytes (l : List (List Nat)) (rest : List Nat)
    (h : ∀ v ∈ l, v.length < 4294967296) :
    readSizes l.length (sizesBytes l ++ rest) =
      some (l.map List.length, rest) := by
  induction l with
  | nil => simp [readSizes, sizesBytes]
  | cons v t ih =>
      have hv : v.length < 4294967296 := h v (by simp)
      have ht : ∀ w ∈ t, w.length < 4294967296 := fun w hw => h w (by simp [hw])
      simp only [sizesBytes, List.length_cons, List.append_assoc, readSizes,
        readLE32_encodeLE32 _ _ hv, ih ht, List.map_cons]

/-- Reading back the payload block of `serialize_list` yields the
elements. -/
theorem readValues_payloadBytes (l : List (List Nat)) (rest : List Nat) :
    readValues (l.map List.length) (payloadBytes l ++ rest) =
      some (l, rest) := by
  induction l with
  | nil => simp [readValues, payloadBytes]
  | cons v t ih =>
      simp only [payloadBytes, List.map_cons, readValues, List.append_assoc,
        List.singleton_append, List.take_left, List.drop_left, if_pos rfl,
        if_true]
      show (match readValues (List.map List.length t) (payloadBytes t ++ rest) with
            | none => none
            | some (vs, rest2) => some (v :: vs, rest2)) = some (v :: t, rest)
      rw [ih]

/-- The capacity fold dominates five bytes per element plus the count
header. -/
theorem length_le_encodedSize (l : List (List Nat)) :
    5 * l.length + 4 ≤ encodedSize l := by
  induction l with
  | nil => simp [encodedSize]
  | cons v t ih => simp only [encodedSize, List.length_cons]; omega

/-- The capacity fold dominates every element's size. -/
theorem elem_length_le_encodedSize (l : List (List Nat)) (v : List Nat)
    (hv : v ∈ l) : v.length + 5 ≤ encodedSize l := by
  induction l with
  | nil => cases hv
  | cons w t ih =>
      rcases List.mem_cons.mp hv with rfl | hv2
      · have : 4 ≤ encodedSize t := le_trans (by omega) (length_le_encodedSize t)
        simp only [encodedSize]; omega
      · have := ih hv2
        simp only [encodedSize]; omega

/-- Removing a key really removes it. -/
theorem cacheGet_cacheRemove (c : List (String × Nat)) (k : String) :
    cacheGet (cacheRemove c k) k = none := by
  induction c with
  | nil => rfl
  | cons p t ih =>
      obtain ⟨k2, v⟩ := p
      by_cases hk : k2 = k
      · simp [cacheRemove, hk, ih]
      · simp [cacheRemove, cacheGet, hk, ih]

/-- Looking up a freshly inserted key returns the inserted row. -/
theorem cacheGet_cacheInsert (c : List (String × Nat)) (k : String)
    (v : Nat) : cacheGet (cacheInsert c k v) k = some v := by
  simp [cacheInsert, cacheGet]

/-! ## Claim theorems -/

/-- Claim C1, counterexample: the negotiated version is NOT always the
first element of the proxy's offered list that is supported.  With the
proxy offering `[0x2a, 0x01]`, the enumeration `[1, 42]` is a possible
hash-set iteration order of the intersection, and then `handshake`
chooses `1` while the first supported element in the proxy's offered
order is `0x2a`. -/
theorem handshake_not_proxy_order_counterexample :
    IsIntersectionEnum [42, 1] [1, 42] ∧
    handshake_chosen [1, 42] = some 1 ∧
    spec_negotiated [42, 1] = some 42 ∧
    handshake_chosen [1, 42] ≠ spec_negotiated [42, 1] := by decide

/-- Claim C1 (amended): the version negotiated by `handshake` is an
element of the intersection of the proxy's offered list with
`{0x01, 0x02, 0x2a}` — the choice depends on hash-set iteration order,
not on the proxy's offered order — and the handshake fails (the
connection is closed without a reply) exactly when that intersection
is empty. -/
theorem handshake_negotiation_amended (offered order : List Nat)
    (h : IsIntersectionEnum offered order) :
    (∀ v, handshake_chosen order = some v →
        v ∈ SUPPORTED_VERSIONS ∧ v ∈ offered) ∧
    (handshake_chosen order = none ↔
        ∀ v ∈ SUPPORTED_VERSIONS, v ∉ offered) := by
  obtain ⟨-, h1, h2⟩ := h
  constructor
  · intro v hv
    cases order with
    | nil => simp [handshake_chosen] at hv
    | cons a t =>
        simp only [handshake_chosen, List.head?_cons, Option.some.injEq] at hv
        subst hv
        exact h1 a (by simp)
  · constructor
    · intro hn v hs hoff
      have hmem := h2 v hs hoff
      cases order with
      | nil => cases hmem
      | cons a t => simp [handshake_chosen] at hn
    · intro hall
      cases order with
      | nil => rfl
      | cons a t =>
          obtain ⟨hs, hoff⟩ := h1 a (by simp)
          exact absurd hoff (hall a hs)

/-- Claim C1 amended, witness: with the proxy offering `[2, 7]` the
only possible enumeration is `[2]`, and the chosen version 2 is a
commonly supported offered version. -/
theorem handshake_negotiation_amended_witness :
    (2 : Nat) ∈ SUPPORTED_VERSIONS ∧ (2 : Nat) ∈ [2, 7] :=
  (handshake_negotiation_amended [2, 7] [2] (by decide)).1 2 rfl

/-- Claim C2: when `execute` completes, a `status_code` stored by
`proxy_send_local_response` wins over any non-`CONTINUE` handler
return; a stored `status_code` with a `CONTINUE` return yields
`CONTINUE`; an unset slot passes the handler's return through. -/
theorem execute_result_spec :
    (∀ na sc : Int, na ≠ CONTINUE → execute_result na (some sc) = sc) ∧
    (∀ sc : Int, execute_result CONTINUE (some sc) = CONTINUE) ∧
    (∀ na : Int, execute_result na none = na) := by
  refine ⟨?_, ?_, ?_⟩ <;> intros <;> simp [execute_result, *]

/-- Claim C2, witness: handler returned 403 with stored status 500;
the stored status wins. -/
theorem execute_result_spec_witness : execute_result 403 (some 500) = 500 :=
  execute_result_spec.1 403 500 (by decide)

/-- Claim C3: `handle_request` classifies every execution error's root
cause exactly per the table: exit 0, non-zero exit, interrupt trap,
unreachable trap, other trap, outer timeout, other error. -/
theorem classify_execution_error_spec :
    classify_execution_error (.i32Exit 0) = (.CONTINUE, .SUCCESS) ∧
    (∀ code : Int, code ≠ 0 →
        classify_execution_error (.i32Exit code) =
          (.EXECUTION_PANIC, .OTHER)) ∧
    classify_execution_error (.trap .interrupt) =
      (.EXECUTION_TIMEOUT, .TIMEOUT) ∧
    classify_execution_error (.trap .unreachableCodeReached) =
      (.OUT_OF_MEMORY, .OOM) ∧
    classify_execution_error (.trap .otherTrap) =
      (.EXECUTION_PANIC, .OTHER) ∧
    classify_execution_error .elapsed = (.EXECUTION_TIMEOUT, .TIMEOUT) ∧
    classify_execution_error .otherError = (.INTERNAL_ERROR, .OTHER) := by
  refine ⟨rfl, ?_, rfl, rfl, rfl, rfl, rfl⟩
  intro code hc
  simp [classify_execution_error, hc]

/-- Claim C3, witness: a clean exit with code 7 is classified as an
execution panic. -/
theorem classify_execution_error_spec_witness :
    classify_execution_error (.i32Exit 7) = (.EXECUTION_PANIC, .OTHER) :=
  classify_execution_error_spec.2.1 7 (by decide)

/-- Claim C4: after sending a `ProxyCommand`, `request_reply` returns
`Ok` with an empty byte string when the 200 ms timeout fires, the
reply bytes when the reply carries status `Ok`, and the corresponding
`HostError` for any other reply status. -/
theorem request_reply_result_spec :
    request_reply_result .timedOut = .ok [] ∧
    (∀ res, request_reply_result (.reply .Ok res) = .ok res) ∧
    (∀ status res, status ≠ ProxyStatus.Ok →
        request_reply_result (.reply status res) =
          .error (hostErrorFromStatus status)) := by
  refine ⟨rfl, fun _ => rfl, ?_⟩
  intro s res hs
  simp [request_reply_result, hs]

/-- Claim C4, witness: a `NotFound` reply surfaces as the `NotFound`
host error. -/
theorem request_reply_result_spec_witness :
    request_reply_result (.reply .NotFound [1]) = .error HostError.notFound :=
  request_reply_result_spec.2.2 .NotFound [1] (by decide)

/-- Claim C5: the `status_code` once-cell is assigned at most once —
the first `proxy_send_local_response` stores its status and succeeds,
every later call fails with an internal failure and leaves the stored
status unchanged. -/
theorem proxy_send_local_response_once :
    (∀ sc : Int, proxy_send_local_response sc none = (.ok (), some sc)) ∧
    (∀ sc v : Int,
        proxy_send_local_response sc (some v) =
          (.error HostError.internalFailure, some v)) :=
  ⟨fun _ => rfl, fun _ _ => rfl⟩

/-- Claim C5, witness: a second local response with status 503 fails
and the first stored status 404 survives. -/
theorem proxy_send_local_response_once_witness :
    proxy_send_local_response 503 (some 404) =
      (.error HostError.internalFailure, some 404) :=
  proxy_send_local_response_once.2 503 404

/-- Claim C6: the registry lookup short-circuits before any module
execution — unknown id to `NOT_FOUND`, `Draft`/`Disabled` to
`NOT_ACCEPTABLE`, `RateLimited` to `TOO_MANY_REQUESTS` — and only an
`Enabled` application proceeds to executor acquisition and
execution. -/
theorem handle_request_gate_spec :
    handle_request_gate none = .shortCircuit .NOT_FOUND ∧
    handle_request_gate (some .Draft) = .shortCircuit .NOT_ACCEPTABLE ∧
    handle_request_gate (some .Disabled) = .shortCircuit .NOT_ACCEPTABLE ∧
    handle_request_gate (some .RateLimited) =
      .shortCircuit .TOO_MANY_REQUESTS ∧
    handle_request_gate (some .Enabled) = .proceed ∧
    (∀ r, handle_request_gate r = .proceed ↔ r = some .Enabled) := by
  refine ⟨rfl, by decide, by decide, by decide, by decide, ?_⟩
  intro r
  cases r with
  | none => decide
  | some s => cases s <;> decide

/-- Claim C6, witness: a rate-limited application short-circuits to
`TOO_MANY_REQUESTS`. -/
theorem handle_request_gate_spec_witness :
    handle_request_gate (some .RateLimited) =
      .shortCircuit .TOO_MANY_REQUESTS :=
  handle_request_gate_spec.2.2.2.1

/-- Claim C7: body handlers with `end_of_stream = false` insert a row
into the cache if absent and reuse the cached row on later calls;
`end_of_stream = true` returns the cached row and removes it, so a
later body chunk with the same key takes the fresh-allocation branch;
non-body handlers always allocate a fresh row and leave the cache
untouched. -/
theorem get_stats_row_spec :
    (∀ req key st, handlerEndOfStream req = none →
        get_stats_row req key st = (st.nextRow, ⟨st.cache, st.nextRow + 1⟩)) ∧
    (∀ req key st, handlerEndOfStream req = some false →
        cacheGet st.cache key = none →
        get_stats_row req key st =
          (st.nextRow, ⟨cacheInsert st.cache key st.nextRow, st.nextRow + 1⟩)) ∧
    (∀ req key st r, handlerEndOfStream req = some false →
        cacheGet st.cache key = some r →
        get_stats_row req key st = (r, st)) ∧
    (∀ req key st r, handlerEndOfStream req = some true →
        cacheGet st.cache key = some r →
        get_stats_row req key st =
          (r, ⟨cacheRemove st.cache key, st.nextRow⟩) ∧
        cacheGet (cacheRemove st.cache key) key = none) ∧
    (∀ req key st, handlerEndOfStream req = some true →
        cacheGet st.cache key = none →
        get_stats_row req key st = (st.nextRow, ⟨st.cache, st.nextRow + 1⟩)) ∧
    (∀ c key v, cacheGet (cacheInsert c key v) key = some v) := by
  refine ⟨?_, ?_, ?_, ?_, ?_, cacheGet_cacheInsert⟩
  · intro req key st h
    simp [get_stats_row, h]
  · intro req key st h hc
    simp [get_stats_row, h, hc]
  · intro req key st r h hc
    simp [get_stats_row, h, hc]
  · intro req key st r h hc
    exact ⟨by simp [get_stats_row, h, hc], cacheGet_cacheRemove st.cache key⟩
  · intro req key st h hc
    simp [get_stats_row, h, hc]

/-- Claim C7, witness: a first body chunk caches row 0 and the same
row is returned on the next chunk. -/
theorem get_stats_row_spec_witness :
    get_stats_row (.OnRequestBody 10 0 false) "tp" ⟨[], 0⟩ =
      (0, ⟨[("tp", 0)], 1⟩) :=
  get_stats_row_spec.2.1 (.OnRequestBody 10 0 false) "tp" ⟨[], 0⟩ rfl rfl

/-- Claim C8: `serialize_list` produces a little-endian `i32` count,
then the element sizes, then each element terminated by `0x00`, and a
deserializer following this format recovers the list whenever the
total encoded size stays within `i32::MAX`. -/
theorem serialize_list_roundtrip (l : List (List Nat))
    (h : encodedSize l ≤ 2147483647) :
    serialize_list l =
      encodeLE32 l.length ++ sizesBytes l ++ payloadBytes l ∧
    deserialize_list (serialize_list l) = some l := by
  refine ⟨rfl, ?_⟩
  have hcount : l.length < 4294967296 := by
    have := length_le_encodedSize l
    omega
  have hsizes : ∀ v ∈ l, v.length < 4294967296 := by
    intro v hv
    have := elem_length_le_encodedSize l v hv
    omega
  have hvals := readValues_payloadBytes l []
  rw [List.append_nil] at hvals
  simp only [deserialize_list, serialize_list, List.append_assoc,
    readLE32_encodeLE32 _ _ hcount, readSizes_sizesBytes l _ hsizes, hvals,
    if_pos rfl, if_true]

/-- Claim C8, witness: the two-element list round-trips through the
serialized format. -/
theorem serialize_list_roundtrip_witness :
    deserialize_list (serialize_list [[1, 2], [3]]) = some [[1, 2], [3]] :=
  (serialize_list_roundtrip [[1, 2], [3]] (by decide)).2

/-- Claim C9: a `proxy_kv_store_get` whose key reads and decodes fine
and whose store lookup misses returns the `Ok` status — in particular
a miss is never reported as `NotFound`. -/
theorem proxy_kv_store_get_miss (e : KvGetEnv) (k : List Nat)
    (hk : e.keyBytes = some k) (hu : e.keyUtf8Ok = true)
    (hm : e.storeResult = .ok none) :
    proxy_kv_store_get e = .Ok ∧ proxy_kv_store_get e ≠ .NotFound := by
  constructor <;> simp [proxy_kv_store_get, hk, hu, hm]

/-- Claim C9, witness: a concrete miss returns `Ok` even with every
later step primed to fail. -/
theorem proxy_kv_store_get_miss_witness :
    proxy_kv_store_get ⟨some [97], true, .ok none, none, false, false⟩ =
      .Ok :=
  (proxy_kv_store_get_miss ⟨some [97], true, .ok none, none, false, false⟩
    [97] rfl rfl rfl).1

/-- Claim C10: on an `edge_shield` node the `shield_` tag is prepended
to the `X-CDN-Real-Host` value before the emptiness check, so an empty
header value yields the 7-byte value `shield_` and the proxy-side
`GetProperty` fallback is never issued. -/
theorem request_host_edge_shield :
    (∀ value fallback,
        resolve_request_host (some "edge_shield") (.ok value) fallback =
          .ok (shieldTag ++ value, false)) ∧
    (∀ fallback,
        resolve_request_host (some "edge_shield") (.ok []) fallback =
          .ok (shieldTag, false)) ∧
    shieldTag.length = 7 := by
  refine ⟨?_, ?_, rfl⟩
  · intro value fallback
    simp [resolve_request_host, shieldTag]
  · intro fallback
    simp [resolve_request_host, shieldTag]

/-- Claim C10, witness: with an empty header value and a non-empty
proxy-side property available, the resolver still answers `shield_`
without the fallback. -/
theorem request_host_edge_shield_witness :
    resolve_request_host (some "edge_shield") (.ok []) (.ok [104]) =
      .ok (shieldTag, false) :=
  request_host_edge_shield.2.1 (.ok [104])

end ProxyWasm
